import Mathlib

/-!
Shallow embedding of the ffmpeg frame muxer
(src/modules/ffmpeg/producer/frame_muxer.cpp) and proofs about its
cadence resolver, segment buffers, combiners and pump.

Pictures are modelled as opaque payload identifiers together with the
scan-mode and geometry data the muxer inspects; audio samples are
opaque integers; rates are rationals mirroring the source's double
comparisons against the literal 2.0 epsilon.  The deinterlace filter is
an opaque per-picture transform supplied by the configuration (the
source consumes it through `filter_.execute`); when no filter has been
configured it is the identity, as in the source's default filter.
-/

namespace FrameMuxer

/-- Scan mode of a picture or of the target format
(`core::video_mode::type`, restricted to the values the muxer uses). -/
inductive VideoMode
  | progressive
  | upper
  | lower
deriving DecidableEq

/-- Cadence policy (`display_mode::type` in the source). -/
inductive DisplayMode
  | simple
  | duplicate
  | half
  | interlace
  | deinterlace_bob
  | deinterlace_bob_reinterlace
  | deinterlace
  | invalid
deriving DecidableEq

/-- Embeds `get_display_mode` (frame_muxer.cpp lines 63-98).  Rates are
modelled as rationals; the comparisons mirror the source's
`std::abs(x - y) < epsilon` checks with `epsilon = 2.0`. -/
def get_display_mode (in_mode : VideoMode) (in_fps : ℚ)
    (out_mode : VideoMode) (out_fps : ℚ) : DisplayMode :=
  if |in_fps - out_fps| < 2 then
    if in_mode ≠ VideoMode.progressive ∧ out_mode = VideoMode.progressive then
      DisplayMode.deinterlace
    else
      DisplayMode.simple
  else if |in_fps / 2 - out_fps| < 2 then
    if in_mode ≠ VideoMode.progressive then DisplayMode.invalid
    else if out_mode ≠ VideoMode.progressive then DisplayMode.interlace
    else DisplayMode.half
  else if |in_fps - out_fps / 2| < 2 then
    if out_mode ≠ VideoMode.progressive then DisplayMode.invalid
    else if in_mode ≠ VideoMode.progressive then DisplayMode.deinterlace_bob
    else DisplayMode.duplicate
  else
    DisplayMode.invalid

/-- Target format descriptor (the fields of `video_format_desc` the
muxer reads: fps, mode, height, audio_samples_per_frame). -/
structure FormatDesc where
  fps : ℚ
  mode : VideoMode
  height : Nat
  audio_samples_per_frame : Nat

/-- The two filter configurations the muxer can install:
`YADIF=0:-1` (full-frame deinterlace) and `YADIF=1:-1` (bob). -/
inductive FilterKind
  | yadif_frame
  | yadif_bob
deriving DecidableEq

/-- A decoded input picture (`AVFrame`) as the muxer inspects it:
its scan mode (`get_mode`), its height, and an opaque pixel payload. -/
structure InputPic where
  mode : VideoMode
  height : Nat
  payload : Nat
deriving DecidableEq

/-- Per-instance constants: `in_fps_`, `format_desc_`, `auto_mode_`,
plus the opaque behaviour of a configured deinterlace filter. -/
structure Config where
  in_fps : ℚ
  format_desc : FormatDesc
  auto_mode : Bool
  filterFn : FilterKind → InputPic → List InputPic

/-- A `core::write_frame` as far as the muxer observes it: pixel
payload, frame type, the half-scanline fill-translation correction
(encoded as its sign), and the attached audio data. -/
structure WriteFrame where
  payload : Nat
  ftype : VideoMode
  offset : Int
  audio_data : List Int
deriving DecidableEq

instance : Inhabited WriteFrame :=
  ⟨⟨0, VideoMode.progressive, 0, []⟩⟩

/-- A finalized `basic_frame`: either a single write_frame or the
composite produced by `core::basic_frame::interlace`. -/
inductive BasicFrame
  | frame (f : WriteFrame)
  | interlaced (f1 f2 : WriteFrame) (mode : VideoMode)
deriving DecidableEq

instance : Inhabited BasicFrame := ⟨BasicFrame.frame default⟩

/-- The audio block attached to an emitted frame: for a composite
interlaced frame the audio was attached to its first field frame. -/
def attachedAudio : BasicFrame → List Int
  | BasicFrame.frame f => f.audio_data
  | BasicFrame.interlaced f1 _ _ => f1.audio_data

/-- Mutable state of `frame_muxer::implementation`.  `video_streams`
and `audio_streams` are the two segment deques (head = oldest = front,
last = newest = back); `warnings` counts the truncation log messages. -/
structure MuxerState where
  video_streams : List (List WriteFrame)
  audio_streams : List (List Int)
  frame_buffer : List BasicFrame
  display_mode : DisplayMode
  video_frame_count : Nat
  audio_sample_count : Nat
  filterSpec : Option FilterKind
  warnings : Nat
deriving DecidableEq

/-- Apply `f` to the front (oldest) element of a deque. -/
def updateFront {α : Type} (f : α → α) : List α → List α
  | [] => []
  | a :: r => f a :: r

/-- Apply `f` to the back (newest) element of a deque. -/
def updateBack {α : Type} (f : α → α) : List α → List α
  | [] => []
  | [a] => [f a]
  | a :: b :: r => a :: updateBack f (b :: r)

/-- Initial state of `implementation::implementation`: one empty
segment on each side, policy `invalid`, counters zero, no filter. -/
def initState : MuxerState :=
  { video_streams := [[]]
    audio_streams := [[]]
    frame_buffer := []
    display_mode := DisplayMode.invalid
    video_frame_count := 0
    audio_sample_count := 0
    filterSpec := none
    warnings := 0 }

/-- `pop_video`: take the front picture of the oldest video segment. -/
def pop_video (s : MuxerState) : WriteFrame × MuxerState :=
  ((s.video_streams.headD []).headD default,
   { s with video_streams := updateFront List.tail s.video_streams })

/-- `pop_audio`: take one frame's worth of samples off the front of the
oldest audio segment (`erase(begin, begin + audio_samples_per_frame)`). -/
def pop_audio (cfg : Config) (s : MuxerState) : List Int × MuxerState :=
  let spf := cfg.format_desc.audio_samples_per_frame
  ((s.audio_streams.headD []).take spf,
   { s with audio_streams := updateFront (fun l => l.drop spf) s.audio_streams })

/-- The `simple` combiner (frame_muxer.cpp lines 285-294). -/
def simple (cfg : Config) (s : MuxerState) : MuxerState :=
  if s.video_streams.headD [] = [] ∨
     (s.audio_streams.headD []).length < cfg.format_desc.audio_samples_per_frame then s
  else
    let vp := pop_video s
    let ap := pop_audio cfg vp.2
    { ap.2 with frame_buffer :=
        ap.2.frame_buffer ++ [BasicFrame.frame { vp.1 with audio_data := ap.1 }] }

/-- The `duplicate` combiner (frame_muxer.cpp lines 296-311): one
picture, an independent copy, two consecutive audio blocks, the copy
emitted first. -/
def duplicate (cfg : Config) (s : MuxerState) : MuxerState :=
  if s.video_streams.headD [] = [] ∨
     (s.audio_streams.headD []).length / 2 < cfg.format_desc.audio_samples_per_frame then s
  else
    let vp := pop_video s
    let ap1 := pop_audio cfg vp.2
    let ap2 := pop_audio cfg ap1.2
    { ap2.2 with frame_buffer :=
        ap2.2.frame_buffer ++
          [BasicFrame.frame { vp.1 with audio_data := ap1.1 },
           BasicFrame.frame { vp.1 with audio_data := ap2.1 }] }

/-- The `half` combiner (frame_muxer.cpp lines 313-324): emit the first
picture with audio; throw the second picture away. -/
def half (cfg : Config) (s : MuxerState) : MuxerState :=
  if (s.video_streams.headD []).length < 2 ∨
     (s.audio_streams.headD []).length < cfg.format_desc.audio_samples_per_frame then s
  else
    let vp := pop_video s
    let ap := pop_audio cfg vp.2
    let s2 := { ap.2 with video_streams := updateFront List.tail ap.2.video_streams }
    { s2 with frame_buffer :=
        s2.frame_buffer ++ [BasicFrame.frame { vp.1 with audio_data := ap.1 }] }

/-- The `interlace` combiner (frame_muxer.cpp lines 326-337): combine
two pictures into one composite; audio rides on the first. -/
def interlace (cfg : Config) (s : MuxerState) : MuxerState :=
  if (s.video_streams.headD []).length < 2 ∨
     (s.audio_streams.headD []).length < cfg.format_desc.audio_samples_per_frame then s
  else
    let vp := pop_video s
    let ap := pop_audio cfg vp.2
    let vp2 := pop_video ap.2
    { vp2.2 with frame_buffer :=
        vp2.2.frame_buffer ++
          [BasicFrame.interlaced { vp.1 with audio_data := ap.1 } vp2.1 cfg.format_desc.mode] }

/-- First phase of `put_frames` (lines 259-267): when both sides hold
more than one segment and either oldest segment is empty, drop the
oldest segment from both sides; log a truncation warning when either
dropped segment still had data. -/
def truncateStep (s : MuxerState) : MuxerState :=
  if 1 < s.video_streams.length ∧ 1 < s.audio_streams.length ∧
     (s.video_streams.headD [] = [] ∨ s.audio_streams.headD [] = []) then
    { s with video_streams := s.video_streams.tail
             audio_streams := s.audio_streams.tail
             warnings := s.warnings +
               (if s.video_streams.headD [] ≠ [] ∨ s.audio_streams.headD [] ≠ [] then 1 else 0) }
  else s

/-- Second phase of `put_frames` (lines 269-282): backpressure check
then dispatch on the policy.  The Bool records whether the `invalid`
arm threw (`BOOST_THROW_EXCEPTION(invalid_operation())`). -/
def dispatchStep (cfg : Config) (s : MuxerState) : MuxerState × Bool :=
  if s.video_streams.headD [] = [] ∨
     (s.audio_streams.headD []).length < cfg.format_desc.audio_samples_per_frame then
    (s, false)
  else
    match s.display_mode with
    | DisplayMode.simple => (simple cfg s, false)
    | DisplayMode.duplicate => (duplicate cfg s, false)
    | DisplayMode.half => (half cfg s, false)
    | DisplayMode.interlace => (interlace cfg s, false)
    | DisplayMode.deinterlace_bob => (simple cfg s, false)
    | DisplayMode.deinterlace_bob_reinterlace => (interlace cfg s, false)
    | DisplayMode.deinterlace => (simple cfg s, false)
    | DisplayMode.invalid => (s, true)

/-- `put_frames` (frame_muxer.cpp lines 257-283). -/
def put_frames (cfg : Config) (s : MuxerState) : MuxerState × Bool :=
  dispatchStep cfg (truncateStep s)

/-- Policy decision run on the first admitted real picture
(frame_muxer.cpp lines 150-167): table lookup plus the rescale
override when auto mode is on, else forced `simple`. -/
def decide_mode (cfg : Config) (p : InputPic) : DisplayMode :=
  if cfg.auto_mode then
    let dm0 := get_display_mode p.mode cfg.in_fps cfg.format_desc.mode cfg.format_desc.fps
    if dm0 = DisplayMode.simple ∧ p.mode ≠ VideoMode.progressive ∧
       cfg.format_desc.mode ≠ VideoMode.progressive ∧
       p.height ≠ cfg.format_desc.height then
      DisplayMode.deinterlace_bob_reinterlace
    else dm0
  else DisplayMode.simple

/-- Filter installed for the decided policy (lines 160-163); policies
other than the deinterlace family leave the filter untouched. -/
def filter_for (dm : DisplayMode) (old : Option FilterKind) : Option FilterKind :=
  if dm = DisplayMode.deinterlace then some FilterKind.yadif_frame
  else if dm = DisplayMode.deinterlace_bob ∨ dm = DisplayMode.deinterlace_bob_reinterlace then
    some FilterKind.yadif_bob
  else old

/-- `filter_.execute`: the default (unconfigured) filter passes the
picture through unchanged; a configured filter is the opaque transform
from the configuration. -/
def filter_execute (cfg : Config) (fs : Option FilterKind) (p : InputPic) : List InputPic :=
  match fs with
  | none => [p]
  | some k => cfg.filterFn k p

/-- Half-scanline field-order correction (lines 176-179), encoded as
the sign of the vertical fill translation. -/
def field_offset (ftype target : VideoMode) : Int :=
  if ftype = VideoMode.lower ∧ target = VideoMode.upper then 1
  else if ftype = VideoMode.upper ∧ target = VideoMode.lower then -1
  else 0

/-- `make_write_frame` plus the field-order fix applied to one picture
coming out of the filter. -/
def make_frame (cfg : Config) (q : InputPic) : WriteFrame :=
  { payload := q.payload
    ftype := q.mode
    offset := field_offset q.mode cfg.format_desc.mode
    audio_data := [] }

/-- Append one write_frame to the newest video segment and bump the
per-segment picture counter (`video_streams_.back().push(frame)`,
`++video_frame_count_`). -/
def enqueue_video_frame (f : WriteFrame) (s : MuxerState) : MuxerState :=
  { s with
    video_streams := updateBack (fun seg => seg ++ [f]) s.video_streams
    video_frame_count := s.video_frame_count + 1 }

/-- Append a sample chunk to the newest audio segment and bump the
sample counter (lines 198-200). -/
def enqueue_audio (samples : List Int) (s : MuxerState) : MuxerState :=
  { s with
    audio_sample_count := s.audio_sample_count + samples.length
    audio_streams := updateBack (fun seg => seg ++ samples) s.audio_streams }

/-- The BOOST_FOREACH loop body of the video push (lines 171-185):
enqueue each filtered picture into the newest video segment, bump the
counter, pump; a throw from the pump aborts the loop. -/
def push_frames (cfg : Config) : MuxerState → List InputPic → MuxerState × Bool
  | s, [] => (s, false)
  | s, q :: rest =>
    if (put_frames cfg (enqueue_video_frame (make_frame cfg q) s)).2 then
      put_frames cfg (enqueue_video_frame (make_frame cfg q) s)
    else
      push_frames cfg (put_frames cfg (enqueue_video_frame (make_frame cfg q) s)).1 rest

/-- Video-side input as `implementation::push` distinguishes it:
null pointer (reset), a frame with null data (placeholder), or a real
picture. -/
inductive VideoInput
  | reset
  | placeholder
  | pic (p : InputPic)
deriving DecidableEq

/-- The policy-decision prologue of the video push (lines 150-169):
runs only while the policy is still `invalid`, then stores the decided
mode and installs its filter. -/
def apply_decision (cfg : Config) (p : InputPic) (s : MuxerState) : MuxerState :=
  if s.display_mode = DisplayMode.invalid then
    { s with display_mode := decide_mode cfg p
             filterSpec := filter_for (decide_mode cfg p) s.filterSpec }
  else s

/-- `implementation::push(video_frame)` (frame_muxer.cpp lines
132-186).  The Bool records whether the pump threw. -/
def push_video (cfg : Config) (s : MuxerState) (v : VideoInput) : MuxerState × Bool :=
  match v with
  | VideoInput.reset =>
      ({ s with video_frame_count := 0
                video_streams := s.video_streams ++ [[]] }, false)
  | VideoInput.placeholder =>
      put_frames cfg (enqueue_video_frame default s)
  | VideoInput.pic p =>
      push_frames cfg (apply_decision cfg p s)
        (filter_execute cfg (apply_decision cfg p s).filterSpec p)

/-- `implementation::push(audio_samples)` (frame_muxer.cpp lines
188-202). -/
def push_audio (cfg : Config) (s : MuxerState) (a : Option (List Int)) : MuxerState × Bool :=
  match a with
  | none =>
      ({ s with audio_streams := s.audio_streams ++ [[]]
                audio_sample_count := 0 }, false)
  | some samples =>
      put_frames cfg (enqueue_audio samples s)

/-- `implementation::pop` (lines 204-209): remove and return the
oldest finalized frame. -/
def pop (s : MuxerState) : BasicFrame × MuxerState :=
  (s.frame_buffer.headD default, { s with frame_buffer := s.frame_buffer.tail })

/-- `video_frames()`: depth of the newest video segment. -/
def video_frames (s : MuxerState) : Nat :=
  (s.video_streams.getLastD []).length

/-- `audio_chunks()`: whole frames of samples in the newest audio
segment. -/
def audio_chunks (cfg : Config) (s : MuxerState) : Nat :=
  (s.audio_streams.getLastD []).length / cfg.format_desc.audio_samples_per_frame

/-- `video_ready()` (lines 237-240). -/
def video_ready (s : MuxerState) : Prop :=
  1 < video_frames s ∧ s.audio_streams.length ≤ s.video_streams.length

/-- `audio_ready()` (lines 242-245). -/
def audio_ready (cfg : Config) (s : MuxerState) : Prop :=
  1 < audio_chunks cfg s ∧ s.video_streams.length ≤ s.audio_streams.length

instance (s : MuxerState) : Decidable (video_ready s) := by
  unfold video_ready; infer_instance

instance (cfg : Config) (s : MuxerState) : Decidable (audio_ready cfg s) := by
  unfold audio_ready; infer_instance

/-- One operation of the public surface. -/
inductive Op
  | videoIn (v : VideoInput)
  | audioIn (a : Option (List Int))
  | popFrame
deriving DecidableEq

/-- One step of the muxer: pushes keep their state even when the pump
throws (the C++ exception propagates but the object survives). -/
def step (cfg : Config) (s : MuxerState) (op : Op) : MuxerState :=
  match op with
  | Op.videoIn v => (push_video cfg s v).1
  | Op.audioIn a => (push_audio cfg s a).1
  | Op.popFrame => (pop s).2

/-- Run a fresh muxer instance over a sequence of operations. -/
def run (cfg : Config) (ops : List Op) : MuxerState :=
  ops.foldl (step cfg) initState

/-- Modelled from the spec: the rule table of section 4.1, rows read
top to bottom, rate comparisons with an absolute tolerance of 2.0 fps.
This is the spec-side definition that claim C1 compares with the
source's `get_display_mode`. -/
def spec_table (im : VideoMode) (ifps : ℚ) (om : VideoMode) (ofps : ℚ) : DisplayMode :=
  if |ifps - ofps| < 2 ∧ im ≠ VideoMode.progressive ∧ om = VideoMode.progressive then
    DisplayMode.deinterlace
  else if |ifps - ofps| < 2 then
    DisplayMode.simple
  else if |ifps / 2 - ofps| < 2 ∧ im = VideoMode.progressive ∧ om ≠ VideoMode.progressive then
    DisplayMode.interlace
  else if |ifps / 2 - ofps| < 2 ∧ im = VideoMode.progressive ∧ om = VideoMode.progressive then
    DisplayMode.half
  else if |ifps / 2 - ofps| < 2 then
    DisplayMode.invalid
  else if |ifps - ofps / 2| < 2 ∧ im = VideoMode.progressive ∧ om = VideoMode.progressive then
    DisplayMode.duplicate
  else if |ifps - ofps / 2| < 2 ∧ im ≠ VideoMode.progressive ∧ om = VideoMode.progressive then
    DisplayMode.deinterlace_bob
  else if |ifps - ofps / 2| < 2 then
    DisplayMode.invalid
  else
    DisplayMode.invalid

/-- Number of video reset markers (null video pushes) in a trace. -/
def videoResets : List Op → Nat
  | [] => 0
  | Op.videoIn VideoInput.reset :: rest => videoResets rest + 1
  | _ :: rest => videoResets rest

/-- Number of audio reset markers (null audio pushes) in a trace. -/
def audioResets : List Op → Nat
  | [] => 0
  | Op.audioIn none :: rest => audioResets rest + 1
  | _ :: rest => audioResets rest

/-- Modelled from the spec: `videoReady()` is true when the current
(newest) video segment has more than one buffered picture and the video
segment count is at least the audio segment count. -/
def videoReady_spec (s : MuxerState) : Prop :=
  1 < (s.video_streams.getLastD []).length ∧
    s.audio_streams.length ≤ s.video_streams.length

/-- Modelled from the spec: `audioReady()` is true when the current
(newest) audio segment holds more than one frame's worth of samples —
at least two whole frames' worth — and the audio segment count is at
least the video segment count. -/
def audioReady_spec (cfg : Config) (s : MuxerState) : Prop :=
  2 * cfg.format_desc.audio_samples_per_frame ≤ (s.audio_streams.getLastD []).length ∧
    s.video_streams.length ≤ s.audio_streams.length

/-- A configuration with automatic cadence detection off (target 25p,
4 samples per frame); the filter transform is the identity. -/
def autoOffConfig : Config :=
  { in_fps := 25
    format_desc :=
      { fps := 25, mode := VideoMode.progressive, height := 576, audio_samples_per_frame := 4 }
    auto_mode := false
    filterFn := fun _ q => [q] }

/-- Auto-mode configuration with 50 fps source and 25p target: an
interlaced source picture resolves to `invalid`, a progressive one to
`half`. -/
def autoC3Config : Config :=
  { in_fps := 50
    format_desc :=
      { fps := 25, mode := VideoMode.progressive, height := 576, audio_samples_per_frame := 4 }
    auto_mode := true
    filterFn := fun _ q => [q] }

/-- Auto-mode configuration with 25 fps progressive source and 50p
target: resolves to `duplicate`.  Samples per frame is a parameter. -/
def autoDupConfig (spf : Nat) : Config :=
  { in_fps := 25
    format_desc :=
      { fps := 50, mode := VideoMode.progressive, height := 576, audio_samples_per_frame := spf }
    auto_mode := true
    filterFn := fun _ q => [q] }

/-- Auto-mode configuration whose target is interlaced 25 fps at height
1080: an interlaced equal-rate source of a different height triggers
the rescale override. -/
def autoC8Config : Config :=
  { in_fps := 25
    format_desc :=
      { fps := 25, mode := VideoMode.upper, height := 1080, audio_samples_per_frame := 4 }
    auto_mode := true
    filterFn := fun _ q => [q] }

/-- An interlaced (upper-field-first) source picture. -/
def picUpper : InputPic := { mode := VideoMode.upper, height := 576, payload := 1 }

/-- A progressive source picture. -/
def picProg : InputPic := { mode := VideoMode.progressive, height := 576, payload := 3 }

/-- Two consecutive video reset markers and nothing else. -/
def opsTwoResets : List Op := [Op.videoIn VideoInput.reset, Op.videoIn VideoInput.reset]

/-- Trace leading to an asymmetric truncation: one admitted picture,
then a video reset and an audio reset, then a short audio chunk whose
pump drops the first segment pair while the video side still holds the
picture. -/
def opsTrunc : List Op :=
  [Op.videoIn (VideoInput.pic picProg), Op.videoIn VideoInput.reset, Op.audioIn none]

/-- A state whose policy is still `invalid` while the oldest segments
hold a picture and a full frame of samples: dispatching pumps it into
the `invalid` arm. -/
def invalidDispatchState : MuxerState :=
  { initState with video_streams := [[default]], audio_streams := [[1, 2, 3, 4]] }

/-- Every frame in the output queue carries an audio block of exactly
one target frame's worth of samples. -/
def goodBuf (cfg : Config) (s : MuxerState) : Prop :=
  ∀ f ∈ s.frame_buffer,
    (attachedAudio f).length = cfg.format_desc.audio_samples_per_frame

/-- One picture then five samples under the auto-off (simple policy)
configuration: emits one frame carrying four samples. -/
def opsSimpleTrace : List Op :=
  [Op.videoIn (VideoInput.pic picProg), Op.audioIn (some [1, 2, 3, 4, 5])]

/-- A progressive output frame with the given pixel payload and audio
block, as the duplicate combiner emits them. -/
def dupFrame (pay : Nat) (blk : List Int) : BasicFrame :=
  BasicFrame.frame
    { payload := pay, ftype := VideoMode.progressive, offset := 0, audio_data := blk }

/-- Claim C1: for every combination of source scan mode, source rate,
target scan mode and target rate, `get_display_mode` returns exactly
the policy of the section 4.1 rule table (rows read top to bottom,
absolute tolerance 2.0 fps on the rate comparisons), and `invalid` for
every combination not covered by a table row. -/
theorem C1_resolver_matches_table (im : VideoMode) (ifps : ℚ) (om : VideoMode) (ofps : ℚ) :
    get_display_mode im ifps om ofps = spec_table im ifps om ofps := by
  by_cases hA : |ifps - ofps| < 2 <;>
    by_cases hB : |ifps / 2 - ofps| < 2 <;>
      by_cases hC : |ifps - ofps / 2| < 2 <;>
        cases im <;> cases om <;>
          simp [get_display_mode, spec_table, hA, hB, hC]

theorem updateFront_length {α : Type} (f : α → α) (l : List α) :
    (updateFront f l).length = l.length := by
  cases l <;> simp [updateFront]

theorem updateBack_length {α : Type} (f : α → α) :
    (l : List α) → (updateBack f l).length = l.length
  | [] => rfl
  | [_] => rfl
  | _ :: b :: r => by
    simp only [updateBack, List.length_cons, updateBack_length f (b :: r)]

theorem simple_shape (cfg : Config) (s : MuxerState) :
    (simple cfg s).video_streams.length = s.video_streams.length ∧
    (simple cfg s).audio_streams.length = s.audio_streams.length ∧
    (simple cfg s).display_mode = s.display_mode := by
  unfold simple
  split_ifs <;> simp [pop_video, pop_audio, updateFront_length]

theorem duplicate_shape (cfg : Config) (s : MuxerState) :
    (duplicate cfg s).video_streams.length = s.video_streams.length ∧
    (duplicate cfg s).audio_streams.length = s.audio_streams.length ∧
    (duplicate cfg s).display_mode = s.display_mode := by
  unfold duplicate
  split_ifs <;> simp [pop_video, pop_audio, updateFront_length]

theorem half_shape (cfg : Config) (s : MuxerState) :
    (half cfg s).video_streams.length = s.video_streams.length ∧
    (half cfg s).audio_streams.length = s.audio_streams.length ∧
    (half cfg s).display_mode = s.display_mode := by
  unfold half
  split_ifs <;> simp [pop_video, pop_audio, updateFront_length]

theorem interlace_shape (cfg : Config) (s : MuxerState) :
    (interlace cfg s).video_streams.length = s.video_streams.length ∧
    (interlace cfg s).audio_streams.length = s.audio_streams.length ∧
    (interlace cfg s).display_mode = s.display_mode := by
  unfold interlace
  split_ifs <;> simp [pop_video, pop_audio, updateFront_length]

theorem dispatchStep_shape (cfg : Config) (s : MuxerState) :
    (dispatchStep cfg s).1.video_streams.length = s.video_streams.length ∧
    (dispatchStep cfg s).1.audio_streams.length = s.audio_streams.length ∧
    (dispatchStep cfg s).1.display_mode = s.display_mode := by
  unfold dispatchStep
  split
  · exact ⟨rfl, rfl, rfl⟩
  · split <;>
      first
        | exact simple_shape cfg s
        | exact duplicate_shape cfg s
        | exact half_shape cfg s
        | exact interlace_shape cfg s
        | exact ⟨rfl, rfl, rfl⟩

theorem truncateStep_display (s : MuxerState) :
    (truncateStep s).display_mode = s.display_mode := by
  unfold truncateStep; split_ifs <;> rfl

theorem truncateStep_buffer (s : MuxerState) :
    (truncateStep s).frame_buffer = s.frame_buffer := by
  unfold truncateStep; split_ifs <;> rfl

theorem truncateStep_cross (s : MuxerState) :
    (truncateStep s).video_streams.length + s.audio_streams.length =
      (truncateStep s).audio_streams.length + s.video_streams.length := by
  unfold truncateStep
  split
  · next h =>
    obtain ⟨h1, h2, _⟩ := h
    simp [List.length_tail]
    omega
  · omega

theorem truncateStep_pos (s : MuxerState)
    (hv : 1 ≤ s.video_streams.length) (ha : 1 ≤ s.audio_streams.length) :
    1 ≤ (truncateStep s).video_streams.length ∧
      1 ≤ (truncateStep s).audio_streams.length := by
  unfold truncateStep
  split
  · next h =>
    obtain ⟨h1, h2, _⟩ := h
    simp [List.length_tail]
    omega
  · exact ⟨hv, ha⟩

theorem put_frames_display (cfg : Config) (s : MuxerState) :
    (put_frames cfg s).1.display_mode = s.display_mode := by
  unfold put_frames
  rw [(dispatchStep_shape cfg (truncateStep s)).2.2, truncateStep_display]

theorem put_frames_cross (cfg : Config) (s : MuxerState) :
    (put_frames cfg s).1.video_streams.length + s.audio_streams.length =
      (put_frames cfg s).1.audio_streams.length + s.video_streams.length := by
  unfold put_frames
  have h1 := dispatchStep_shape cfg (truncateStep s)
  have h2 := truncateStep_cross s
  omega

theorem put_frames_pos (cfg : Config) (s : MuxerState)
    (hv : 1 ≤ s.video_streams.length) (ha : 1 ≤ s.audio_streams.length) :
    1 ≤ (put_frames cfg s).1.video_streams.length ∧
      1 ≤ (put_frames cfg s).1.audio_streams.length := by
  unfold put_frames
  have h1 := dispatchStep_shape cfg (truncateStep s)
  have h2 := truncateStep_pos s hv ha
  omega

theorem enqueue_video_frame_lens (f : WriteFrame) (s : MuxerState) :
    (enqueue_video_frame f s).video_streams.length = s.video_streams.length ∧
    (enqueue_video_frame f s).audio_streams.length = s.audio_streams.length :=
  ⟨updateBack_length _ _, rfl⟩

theorem enqueue_audio_lens (samples : List Int) (s : MuxerState) :
    (enqueue_audio samples s).video_streams.length = s.video_streams.length ∧
    (enqueue_audio samples s).audio_streams.length = s.audio_streams.length :=
  ⟨rfl, updateBack_length _ _⟩

theorem apply_decision_lens (cfg : Config) (p : InputPic) (s : MuxerState) :
    (apply_decision cfg p s).video_streams.length = s.video_streams.length ∧
    (apply_decision cfg p s).audio_streams.length = s.audio_streams.length := by
  unfold apply_decision
  split <;> exact ⟨rfl, rfl⟩

theorem apply_decision_of_ne (cfg : Config) (p : InputPic) (s : MuxerState)
    (h : s.display_mode ≠ DisplayMode.invalid) :
    apply_decision cfg p s = s := by
  unfold apply_decision
  exact if_neg h

theorem push_frames_display (cfg : Config) :
    ∀ (l : List InputPic) (s : MuxerState),
      (push_frames cfg s l).1.display_mode = s.display_mode
  | [], _ => rfl
  | q :: rest, s => by
    simp only [push_frames]
    split
    · exact put_frames_display cfg _
    · exact (push_frames_display cfg rest _).trans (put_frames_display cfg _)

theorem push_frames_cross (cfg : Config) :
    ∀ (l : List InputPic) (s : MuxerState),
      (push_frames cfg s l).1.video_streams.length + s.audio_streams.length =
        (push_frames cfg s l).1.audio_streams.length + s.video_streams.length
  | [], s => Nat.add_comm _ _
  | q :: rest, s => by
    simp only [push_frames]
    have he := enqueue_video_frame_lens (make_frame cfg q) s
    have h1 := put_frames_cross cfg (enqueue_video_frame (make_frame cfg q) s)
    split
    · omega
    · have h2 := push_frames_cross cfg rest
        (put_frames cfg (enqueue_video_frame (make_frame cfg q) s)).1
      omega

theorem push_frames_pos (cfg : Config) :
    ∀ (l : List InputPic) (s : MuxerState),
      1 ≤ s.video_streams.length → 1 ≤ s.audio_streams.length →
      1 ≤ (push_frames cfg s l).1.video_streams.length ∧
        1 ≤ (push_frames cfg s l).1.audio_streams.length
  | [], _, hv, ha => ⟨hv, ha⟩
  | q :: rest, s, hv, ha => by
    simp only [push_frames]
    have he := enqueue_video_frame_lens (make_frame cfg q) s
    have h1 := put_frames_pos cfg (enqueue_video_frame (make_frame cfg q) s)
      (by omega) (by omega)
    split
    · exact h1
    · exact push_frames_pos cfg rest _ h1.1 h1.2

theorem step_display (cfg : Config) (s : MuxerState) (op : Op)
    (h : s.display_mode ≠ DisplayMode.invalid) :
    (step cfg s op).display_mode = s.display_mode := by
  cases op with
  | videoIn v =>
    cases v with
    | reset => rfl
    | placeholder => exact put_frames_display cfg _
    | pic p =>
      show (push_frames cfg (apply_decision cfg p s)
          (filter_execute cfg (apply_decision cfg p s).filterSpec p)).1.display_mode
        = s.display_mode
      rw [apply_decision_of_ne cfg p s h]
      exact push_frames_display cfg _ s
  | audioIn a =>
    cases a with
    | none => rfl
    | some samples => exact put_frames_display cfg _
  | popFrame => rfl

theorem step_cross (cfg : Config) (s : MuxerState) (op : Op) :
    (step cfg s op).video_streams.length + s.audio_streams.length + audioResets [op] =
      (step cfg s op).audio_streams.length + s.video_streams.length + videoResets [op] := by
  cases op with
  | videoIn v =>
    cases v with
    | reset =>
      simp [step, push_video, videoResets, audioResets]
      omega
    | placeholder =>
      have h1 := put_frames_cross cfg (enqueue_video_frame default s)
      have he := enqueue_video_frame_lens default s
      simp only [step, push_video, videoResets, audioResets]
      omega
    | pic p =>
      have hd := apply_decision_lens cfg p s
      have h2 := push_frames_cross cfg
        (filter_execute cfg (apply_decision cfg p s).filterSpec p) (apply_decision cfg p s)
      simp only [step, push_video, videoResets, audioResets]
      omega
  | audioIn a =>
    cases a with
    | none =>
      simp [step, push_audio, videoResets, audioResets]
      omega
    | some samples =>
      have h1 := put_frames_cross cfg (enqueue_audio samples s)
      have he := enqueue_audio_lens samples s
      simp only [step, push_audio, videoResets, audioResets]
      omega
  | popFrame =>
    simp [step, pop, videoResets, audioResets]
    omega

theorem step_pos (cfg : Config) (s : MuxerState) (op : Op)
    (hv : 1 ≤ s.video_streams.length) (ha : 1 ≤ s.audio_streams.length) :
    1 ≤ (step cfg s op).video_streams.length ∧
      1 ≤ (step cfg s op).audio_streams.length := by
  cases op with
  | videoIn v =>
    cases v with
    | reset =>
      simp [step, push_video]
      omega
    | placeholder =>
      have he := enqueue_video_frame_lens default s
      exact put_frames_pos cfg (enqueue_video_frame default s) (by omega) (by omega)
    | pic p =>
      have hd := apply_decision_lens cfg p s
      exact push_frames_pos cfg _ (apply_decision cfg p s) (by omega) (by omega)
  | audioIn a =>
    cases a with
    | none =>
      simp [step, push_audio]
      omega
    | some samples =>
      have he := enqueue_audio_lens samples s
      exact put_frames_pos cfg (enqueue_audio samples s) (by omega) (by omega)
  | popFrame => exact ⟨hv, ha⟩

theorem videoResets_cons (op : Op) (rest : List Op) :
    videoResets (op :: rest) = videoResets [op] + videoResets rest := by
  cases op with
  | videoIn v => cases v <;> simp [videoResets] <;> omega
  | audioIn a => cases a <;> simp [videoResets]
  | popFrame => simp [videoResets]

theorem audioResets_cons (op : Op) (rest : List Op) :
    audioResets (op :: rest) = audioResets [op] + audioResets rest := by
  cases op with
  | videoIn v => cases v <;> simp [audioResets]
  | audioIn a => cases a <;> simp [audioResets] <;> omega
  | popFrame => simp [audioResets]

theorem foldl_cross (cfg : Config) :
    ∀ (l : List Op) (s : MuxerState),
      (List.foldl (step cfg) s l).video_streams.length
          + s.audio_streams.length + audioResets l =
        (List.foldl (step cfg) s l).audio_streams.length
          + s.video_streams.length + videoResets l
  | [], s => by simp [videoResets, audioResets]; omega
  | op :: rest, s => by
    have h1 := step_cross cfg s op
    have h2 := foldl_cross cfg rest (step cfg s op)
    rw [List.foldl_cons, videoResets_cons, audioResets_cons]
    omega

/-- Claim C10 (implicit): in every reachable state the video and audio
segment lists each contain at least one segment, so the front/back
segment accesses of push, pump and the readiness predicates are on
non-empty lists. -/
theorem C10_segments_nonempty (cfg : Config) (ops : List Op) :
    1 ≤ (run cfg ops).video_streams.length ∧
      1 ≤ (run cfg ops).audio_streams.length := by
  suffices h : ∀ (l : List Op) (s : MuxerState),
      1 ≤ s.video_streams.length → 1 ≤ s.audio_streams.length →
      1 ≤ (List.foldl (step cfg) s l).video_streams.length ∧
        1 ≤ (List.foldl (step cfg) s l).audio_streams.length by
    exact h ops initState (by simp [initState]) (by simp [initState])
  intro l
  induction l with
  | nil => exact fun s hv ha => ⟨hv, ha⟩
  | cons op rest ih =>
    intro s hv ha
    have hs := step_pos cfg s op hv ha
    exact ih _ hs.1 hs.2

/-- Claim C4 counterexample: after two video reset pushes and nothing
else, the muxer holds three video segments and one audio segment, so
the depth difference is 2 > 1. -/
theorem C4_counterexample :
    2 ≤ (run autoOffConfig opsTwoResets).video_streams.length
      - (run autoOffConfig opsTwoResets).audio_streams.length := by
  decide

/-- Claim C4 amended: the difference between the video and audio
segment counts always equals the difference between the numbers of
video and audio reset markers pushed so far (the pump only ever drops
segments from both sides together); in particular the depth difference
never exceeds 1 as long as resets arrive in matched pairs, but it can
exceed 1 when resets are pushed unmatched. -/
theorem C4_segment_diff_equals_reset_diff (cfg : Config) (ops : List Op) :
    ((run cfg ops).video_streams.length : ℤ) - (run cfg ops).audio_streams.length =
      (videoResets ops : ℤ) - audioResets ops := by
  have h := foldl_cross cfg ops initState
  have h1 : initState.video_streams.length = 1 := rfl
  have h2 : initState.audio_streams.length = 1 := rfl
  unfold run
  omega

/-- Claim C3 amended: once the policy holds any value other than
`invalid`, every later operation — in particular every later admitted
picture — leaves it unchanged; while the resolved value is still
`invalid` the next real picture re-runs the decision. -/
theorem C3_policy_immutable_once_valid (cfg : Config) (s : MuxerState) (op : Op)
    (h : s.display_mode ≠ DisplayMode.invalid) :
    (step cfg s op).display_mode = s.display_mode :=
  step_display cfg s op h

theorem C3_witness :
    (step autoOffConfig { initState with display_mode := DisplayMode.simple }
        (Op.videoIn VideoInput.reset)).display_mode =
      ({ initState with display_mode := DisplayMode.simple } : MuxerState).display_mode :=
  C3_policy_immutable_once_valid autoOffConfig
    { initState with display_mode := DisplayMode.simple }
    (Op.videoIn VideoInput.reset) (by decide)

theorem updateFront_drop_headD {α : Type} (n : Nat) (l : List (List α)) :
    (updateFront (fun x => x.drop n) l).headD [] = (l.headD []).drop n := by
  cases l <;> simp [updateFront]

theorem simple_goodBuf (cfg : Config) (s : MuxerState) (h : goodBuf cfg s) :
    goodBuf cfg (simple cfg s) := by
  unfold goodBuf simple
  split
  · exact h
  · next hc =>
    push_neg at hc
    intro f hf
    simp only [pop_video, pop_audio, List.mem_append, List.mem_singleton] at hf
    rcases hf with hf | hf
    · exact h f hf
    · subst hf
      simp only [attachedAudio, List.length_take]
      omega

theorem duplicate_goodBuf (cfg : Config) (s : MuxerState) (h : goodBuf cfg s) :
    goodBuf cfg (duplicate cfg s) := by
  unfold goodBuf duplicate
  split
  · exact h
  · next hc =>
    push_neg at hc
    have hlen : 2 * cfg.format_desc.audio_samples_per_frame ≤
        (s.audio_streams.headD []).length := by
      have h2 := hc.2
      omega
    intro f hf
    simp only [pop_video, pop_audio, updateFront_drop_headD, List.mem_append,
      List.mem_cons, List.not_mem_nil, or_false] at hf
    rcases hf with hf | hf | hf
    · exact h f hf
    · subst hf
      simp only [attachedAudio, List.length_take]
      omega
    · subst hf
      simp only [attachedAudio, List.length_take, List.length_drop]
      omega

theorem half_goodBuf (cfg : Config) (s : MuxerState) (h : goodBuf cfg s) :
    goodBuf cfg (half cfg s) := by
  unfold goodBuf half
  split
  · exact h
  · next hc =>
    push_neg at hc
    intro f hf
    simp only [pop_video, pop_audio, List.mem_append, List.mem_singleton] at hf
    rcases hf with hf | hf
    · exact h f hf
    · subst hf
      simp only [attachedAudio, List.length_take]
      omega

theorem interlace_goodBuf (cfg : Config) (s : MuxerState) (h : goodBuf cfg s) :
    goodBuf cfg (interlace cfg s) := by
  unfold goodBuf interlace
  split
  · exact h
  · next hc =>
    push_neg at hc
    intro f hf
    simp only [pop_video, pop_audio, List.mem_append, List.mem_singleton] at hf
    rcases hf with hf | hf
    · exact h f hf
    · subst hf
      simp only [attachedAudio, List.length_take]
      omega

theorem dispatchStep_goodBuf (cfg : Config) (s : MuxerState) (h : goodBuf cfg s) :
    goodBuf cfg (dispatchStep cfg s).1 := by
  unfold dispatchStep
  split
  · exact h
  · split <;>
      first
        | exact simple_goodBuf cfg s h
        | exact duplicate_goodBuf cfg s h
        | exact half_goodBuf cfg s h
        | exact interlace_goodBuf cfg s h
        | exact h

theorem truncateStep_goodBuf (cfg : Config) (s : MuxerState) (h : goodBuf cfg s) :
    goodBuf cfg (truncateStep s) := by
  unfold goodBuf
  rw [truncateStep_buffer]
  exact h

theorem put_frames_goodBuf (cfg : Config) (s : MuxerState) (h : goodBuf cfg s) :
    goodBuf cfg (put_frames cfg s).1 :=
  dispatchStep_goodBuf cfg (truncateStep s) (truncateStep_goodBuf cfg s h)

theorem push_frames_goodBuf (cfg : Config) :
    ∀ (l : List InputPic) (s : MuxerState), goodBuf cfg s →
      goodBuf cfg (push_frames cfg s l).1
  | [], _, h => h
  | q :: rest, s, h => by
    simp only [push_frames]
    have h1 : goodBuf cfg (enqueue_video_frame (make_frame cfg q) s) := h
    have h2 := put_frames_goodBuf cfg _ h1
    split
    · exact h2
    · exact push_frames_goodBuf cfg rest _ h2

theorem apply_decision_goodBuf (cfg : Config) (p : InputPic) (s : MuxerState)
    (h : goodBuf cfg s) : goodBuf cfg (apply_decision cfg p s) := by
  unfold apply_decision
  split
  · exact h
  · exact h

theorem step_goodBuf (cfg : Config) (s : MuxerState) (op : Op) (h : goodBuf cfg s) :
    goodBuf cfg (step cfg s op) := by
  cases op with
  | videoIn v =>
    cases v with
    | reset => exact h
    | placeholder => exact put_frames_goodBuf cfg _ h
    | pic p =>
      exact push_frames_goodBuf cfg _ _ (apply_decision_goodBuf cfg p s h)
  | audioIn a =>
    cases a with
    | none => exact h
    | some samples => exact put_frames_goodBuf cfg _ h
  | popFrame =>
    intro f hf
    exact h f (List.mem_of_mem_tail hf)

/-- Claim C2: every frame in the output queue of any reachable state —
hence every emitted OutputFrame, under every cadence policy — carries
an audio block whose length equals the target format's
samples-per-frame constant exactly. -/
theorem C2_audio_block_length (cfg : Config) (ops : List Op) (f : BasicFrame)
    (hf : f ∈ (run cfg ops).frame_buffer) :
    (attachedAudio f).length = cfg.format_desc.audio_samples_per_frame := by
  suffices h : ∀ (l : List Op) (s : MuxerState), goodBuf cfg s →
      goodBuf cfg (List.foldl (step cfg) s l) by
    exact h ops initState (by intro g hg; cases hg) f hf
  intro l
  induction l with
  | nil => exact fun s hs => hs
  | cons op rest ih => exact fun s hs => ih _ (step_goodBuf cfg s op hs)

theorem C2_witness :
    (attachedAudio (BasicFrame.frame
        { payload := 3, ftype := VideoMode.progressive, offset := 0,
          audio_data := [1, 2, 3, 4] })).length =
      autoOffConfig.format_desc.audio_samples_per_frame :=
  C2_audio_block_length autoOffConfig opsSimpleTrace
    (BasicFrame.frame
      { payload := 3, ftype := VideoMode.progressive, offset := 0,
        audio_data := [1, 2, 3, 4] })
    (by decide)

theorem gdm_prog25_prog50_duplicate :
    get_display_mode VideoMode.progressive 25 VideoMode.progressive 50
      = DisplayMode.duplicate := by
  unfold get_display_mode
  split_ifs <;> simp_all [abs_lt] <;> norm_num at *

theorem gdm_upper50_prog25_invalid :
    get_display_mode VideoMode.upper 50 VideoMode.progressive 25
      = DisplayMode.invalid := by
  unfold get_display_mode
  split_ifs <;> simp_all [abs_lt] <;> norm_num at *

theorem gdm_prog50_prog25_half :
    get_display_mode VideoMode.progressive 50 VideoMode.progressive 25
      = DisplayMode.half := by
  unfold get_display_mode
  split_ifs <;> simp_all [abs_lt] <;> norm_num at *

theorem gdm_upper25_upper25_simple :
    get_display_mode VideoMode.upper 25 VideoMode.upper 25
      = DisplayMode.simple := by
  unfold get_display_mode
  split_ifs <;> simp_all [abs_lt] <;> norm_num at *

/-- Claim C6: `video_ready` is true exactly when the newest video
segment holds more than one buffered picture and the video segment
count is at least the audio segment count; `audio_ready` is true
exactly when the newest audio segment holds more than one frame's
worth of samples — i.e. at least two whole frames' worth — and the
audio segment count is at least the video segment count. -/
theorem C6_ready_predicates (cfg : Config) (s : MuxerState)
    (hspf : 0 < cfg.format_desc.audio_samples_per_frame) :
    (video_ready s ↔ videoReady_spec s) ∧
    (audio_ready cfg s ↔ audioReady_spec cfg s) := by
  constructor
  · exact Iff.rfl
  · unfold audio_ready audioReady_spec audio_chunks
    have key : 1 < (s.audio_streams.getLastD []).length /
          cfg.format_desc.audio_samples_per_frame ↔
        2 * cfg.format_desc.audio_samples_per_frame ≤
          (s.audio_streams.getLastD []).length := by
      constructor
      · intro hlt
        have h2 : 2 ≤ (s.audio_streams.getLastD []).length /
            cfg.format_desc.audio_samples_per_frame := hlt
        have h3 := (Nat.le_div_iff_mul_le hspf).mp h2
        omega
      · intro hle
        have h2 := (Nat.le_div_iff_mul_le hspf).mpr
          (show 2 * cfg.format_desc.audio_samples_per_frame ≤
            (s.audio_streams.getLastD []).length from hle)
        omega
    exact and_congr key Iff.rfl

theorem C6_witness :
    (video_ready initState ↔ videoReady_spec initState) ∧
    (audio_ready autoOffConfig initState ↔ audioReady_spec autoOffConfig initState) :=
  C6_ready_predicates autoOffConfig initState (by decide)

/-- Claim C8: when automatic cadence detection is on and the policy is
still undecided, a first real picture for which the table yields
`simple` while the source picture is non-progressive, the target mode
is non-progressive and the source height differs from the target
height is assigned `deinterlace-bob-reinterlace` rather than `simple`. -/
theorem C8_rescale_override (cfg : Config) (s : MuxerState) (p : InputPic)
    (hauto : cfg.auto_mode = true)
    (hinv : s.display_mode = DisplayMode.invalid)
    (htab : get_display_mode p.mode cfg.in_fps cfg.format_desc.mode cfg.format_desc.fps
      = DisplayMode.simple)
    (hm : p.mode ≠ VideoMode.progressive)
    (ht : cfg.format_desc.mode ≠ VideoMode.progressive)
    (hh : p.height ≠ cfg.format_desc.height) :
    (push_video cfg s (VideoInput.pic p)).1.display_mode
      = DisplayMode.deinterlace_bob_reinterlace := by
  have hdm : decide_mode cfg p = DisplayMode.deinterlace_bob_reinterlace := by
    simp [decide_mode, hauto, htab, hm, ht, hh]
  show (push_frames cfg (apply_decision cfg p s)
      (filter_execute cfg (apply_decision cfg p s).filterSpec p)).1.display_mode = _
  rw [push_frames_display]
  unfold apply_decision
  rw [if_pos hinv]
  exact hdm

theorem C8_witness :
    (push_video autoC8Config initState (VideoInput.pic picUpper)).1.display_mode
      = DisplayMode.deinterlace_bob_reinterlace :=
  C8_rescale_override autoC8Config initState picUpper rfl rfl
    gdm_upper25_upper25_simple (by decide) (by decide) (by decide)

/-- Claim C9: if the pump reaches dispatch with the policy still
`invalid` — after the truncation phase the oldest video segment is
non-empty and the oldest audio segment holds at least a frame's worth
of samples — the operation throws and appends no output frame. -/
theorem C9_invalid_dispatch_throws (cfg : Config) (s : MuxerState)
    (hinv : s.display_mode = DisplayMode.invalid)
    (hv : (truncateStep s).video_streams.headD [] ≠ [])
    (ha : cfg.format_desc.audio_samples_per_frame ≤
      ((truncateStep s).audio_streams.headD []).length) :
    (put_frames cfg s).2 = true ∧
      (put_frames cfg s).1.frame_buffer = s.frame_buffer := by
  have hd : (truncateStep s).display_mode = DisplayMode.invalid :=
    (truncateStep_display s).trans hinv
  unfold put_frames dispatchStep
  rw [if_neg (by push_neg; exact ⟨hv, by omega⟩), hd]
  exact ⟨rfl, truncateStep_buffer s⟩

theorem C9_witness :
    (put_frames autoOffConfig invalidDispatchState).2 = true ∧
      (put_frames autoOffConfig invalidDispatchState).1.frame_buffer =
        invalidDispatchState.frame_buffer :=
  C9_invalid_dispatch_throws autoOffConfig invalidDispatchState rfl
    (by decide) (by decide)

/-- Claim C5 counterexample: the trace `opsTrunc` followed by a short
audio chunk drops a segment pair whose audio side is empty while the
video side still holds a picture, and a truncation warning IS recorded
— refuting the claim that a warning is recorded only when both sides
had nonzero leftover data (under the drop's guard both sides can never
be simultaneously nonzero). -/
theorem C5_counterexample :
    (run autoOffConfig opsTrunc).audio_streams.headD [] = [] ∧
    (run autoOffConfig opsTrunc).video_streams.headD [] ≠ [] ∧
    (run autoOffConfig opsTrunc).warnings = 0 ∧
    (run autoOffConfig (opsTrunc ++ [Op.audioIn (some [9, 9])])).warnings = 1 := by
  decide

/-- Claim C5 amended: at a truncation (both sides hold more than one
segment and an oldest segment is empty) the oldest segments are
dropped from both sides and nothing else changes — the dropped data
leaves the state entirely and no output frame is produced by the drop
itself — and a truncation warning is recorded exactly when at least
one side (necessarily exactly one) still had leftover data, not only
when both did; reset markers open the new segments with their counters
at zero. -/
theorem C5_truncation (cfg : Config) (s : MuxerState)
    (hv : 1 < s.video_streams.length) (ha : 1 < s.audio_streams.length)
    (he : s.video_streams.headD [] = [] ∨ s.audio_streams.headD [] = []) :
    (truncateStep s).video_streams = s.video_streams.tail ∧
    (truncateStep s).audio_streams = s.audio_streams.tail ∧
    (truncateStep s).frame_buffer = s.frame_buffer ∧
    ((truncateStep s).warnings = s.warnings + 1 ↔
      (s.video_streams.headD [] ≠ [] ∨ s.audio_streams.headD [] ≠ [])) ∧
    (push_video cfg s VideoInput.reset).1.video_frame_count = 0 ∧
    (push_audio cfg s none).1.audio_sample_count = 0 := by
  unfold truncateStep
  rw [if_pos ⟨hv, ha, he⟩]
  refine ⟨rfl, rfl, rfl, ?w, rfl, rfl⟩
  split
  · next hw => exact iff_of_true rfl hw
  · next hw =>
    exact iff_of_false (by show ¬ (s.warnings + 0 = s.warnings + 1); omega) hw

theorem C5_witness :
    ((truncateStep (run autoOffConfig opsTrunc)).video_streams =
        (run autoOffConfig opsTrunc).video_streams.tail ∧
      (truncateStep (run autoOffConfig opsTrunc)).audio_streams =
        (run autoOffConfig opsTrunc).audio_streams.tail ∧
      (truncateStep (run autoOffConfig opsTrunc)).frame_buffer =
        (run autoOffConfig opsTrunc).frame_buffer ∧
      ((truncateStep (run autoOffConfig opsTrunc)).warnings =
          (run autoOffConfig opsTrunc).warnings + 1 ↔
        ((run autoOffConfig opsTrunc).video_streams.headD [] ≠ [] ∨
          (run autoOffConfig opsTrunc).audio_streams.headD [] ≠ [])) ∧
      (push_video autoOffConfig (run autoOffConfig opsTrunc)
          VideoInput.reset).1.video_frame_count = 0 ∧
      (push_audio autoOffConfig (run autoOffConfig opsTrunc)
          none).1.audio_sample_count = 0) :=
  C5_truncation autoOffConfig (run autoOffConfig opsTrunc)
    (by decide) (by decide) (by decide)

/-- Claim C3 counterexample: under `autoC3Config` the first admitted
real picture (interlaced) assigns the policy `invalid`; the second
admitted picture (progressive) then changes the assigned policy to
`half` — so the policy is not held fixed after its first assignment on
a real picture. -/
theorem C3_counterexample :
    (run autoC3Config [Op.videoIn (VideoInput.pic picUpper)]).display_mode
        = DisplayMode.invalid ∧
    (run autoC3Config [Op.videoIn (VideoInput.pic picUpper),
        Op.videoIn (VideoInput.pic picProg)]).display_mode = DisplayMode.half := by
  constructor <;>
    simp [run, step, push_video, apply_decision, decide_mode, autoC3Config, picUpper,
      picProg, filter_for, filter_execute, push_frames, enqueue_video_frame, updateBack,
      make_frame, field_offset, put_frames, truncateStep, dispatchStep, initState,
      gdm_upper50_prog25_invalid, gdm_prog50_prog25_half]

/-- Claim C7: under the duplicate policy, pushing one real picture and
then two frames' worth of samples into a fresh instance yields exactly
two output frames with identical video content, carrying disjoint
consecutive blocks of the pushed samples in original temporal order:
the independent copy with the earlier block is emitted first, the
original with the later block second. -/
theorem C7_duplicate_law (spf ht pay : Nat) (samples : List Int)
    (hspf : 0 < spf) (hlen : samples.length = 2 * spf) :
    (run (autoDupConfig spf)
        [Op.videoIn (VideoInput.pic
           { mode := VideoMode.progressive, height := ht, payload := pay }),
         Op.audioIn (some samples)]).frame_buffer =
      [dupFrame pay (samples.take spf), dupFrame pay (samples.drop spf)] ∧
    samples.take spf ++ samples.drop spf = samples := by
  have hdm : decide_mode (autoDupConfig spf)
      { mode := VideoMode.progressive, height := ht, payload := pay }
      = DisplayMode.duplicate := by
    simp [decide_mode, autoDupConfig, gdm_prog25_prog50_duplicate]
  have hsp : (autoDupConfig spf).format_desc.audio_samples_per_frame = spf := rfl
  have hmode : (autoDupConfig spf).format_desc.mode = VideoMode.progressive := rfl
  have h1 : (push_video (autoDupConfig spf) initState
      (VideoInput.pic { mode := VideoMode.progressive, height := ht, payload := pay })).1 =
      { video_streams :=
          [[{ payload := pay, ftype := VideoMode.progressive, offset := 0, audio_data := [] }]]
        audio_streams := [[]]
        frame_buffer := []
        display_mode := DisplayMode.duplicate
        video_frame_count := 1
        audio_sample_count := 0
        filterSpec := none
        warnings := 0 } := by
    simp [push_video, apply_decision, initState, hdm, hsp, hmode, filter_for,
      filter_execute, push_frames, enqueue_video_frame, updateBack, make_frame,
      field_offset, put_frames, truncateStep, dispatchStep, hspf]
  have hg1 : ¬ (samples.length < spf) := by omega
  have hg2 : ¬ (samples.length / 2 < spf) := by omega
  have htk2 : (samples.drop spf).take spf = samples.drop spf :=
    List.take_of_length_le (by simp [List.length_drop]; omega)
  refine ⟨?main, List.take_append_drop spf samples⟩
  show (push_audio (autoDupConfig spf)
      (push_video (autoDupConfig spf) initState (VideoInput.pic
        { mode := VideoMode.progressive, height := ht, payload := pay })).1
      (some samples)).1.frame_buffer = _
  rw [h1]
  simp [push_audio, enqueue_audio, updateBack, put_frames, truncateStep, dispatchStep,
    duplicate, pop_video, pop_audio, updateFront, hsp, hg1, hg2, htk2, dupFrame]

theorem C7_witness :
    ((run (autoDupConfig 2)
        [Op.videoIn (VideoInput.pic
           { mode := VideoMode.progressive, height := 576, payload := 3 }),
         Op.audioIn (some [1, 2, 3, 4])]).frame_buffer =
      [dupFrame 3 (([1, 2, 3, 4] : List Int).take 2),
       dupFrame 3 (([1, 2, 3, 4] : List Int).drop 2)] ∧
    ([1, 2, 3, 4] : List Int).take 2 ++ ([1, 2, 3, 4] : List Int).drop 2 = [1, 2, 3, 4]) :=
  C7_duplicate_law 2 576 3 [1, 2, 3, 4] (by decide) (by decide)

end FrameMuxer
